import Mathlib

/-!
Shallow embedding of the auth-connector library (Python) and proofs about it.

Source files embedded:
  - auth_connector/service_discovery.py : ServiceDiscoveryClient
      (register, deregister, send_heartbeat, start_heartbeat, stop_heartbeat,
       the constructor).
  - auth_connector/auth_client.py : AuthClient.get_user_permissions and the
      permission cache with its TTL check.
  - auth_connector/auth_middleware.py : extract_user_context dispatch and the
      require_permission decorator.

Remote HTTP calls are modelled by response oracles passed in as arguments
(a single response, or a list of responses consumed one per attempt); side
effects that matter to the claims (transport calls, sleeps) are recorded in an
event trace. Wall-clock time is an explicit natural number of seconds.
-/

namespace AuthConnector

/-- Outcome of one HTTP request made through the requests library:
an HTTP response with a status code, a ConnectionError, or any other
exception raised by the call. -/
inductive HttpResult where
  | status (code : Nat)
  | connError
  | exn
deriving DecidableEq

/-- Mutable state of a ServiceDiscoveryClient that the embedded methods touch:
the _registered flag and the number of live heartbeat threads (the Python
object holds a single thread slot guarded by an is_alive check; with only
start_heartbeat / stop_heartbeat acting on it the slot is alive exactly when
the count is nonzero). -/
structure SDState where
  registered : Bool
  hbActive : Nat
deriving DecidableEq

/-- Observable events emitted by the embedded methods: a transport register
call, a transport heartbeat call, a transport deregister call, or a
time.sleep of the given number of seconds. -/
inductive Ev where
  | regCall
  | hbCall
  | deregCall
  | sleep (secs : Nat)
deriving DecidableEq

def isRegCall : Ev → Bool
  | Ev.regCall => true
  | _ => false

def isSleep : Ev → Bool
  | Ev.sleep _ => true
  | _ => false

def isDeregCall : Ev → Bool
  | Ev.deregCall => true
  | _ => false

/-- Response served to the i-th transport attempt; an oracle list shorter
than the number of attempts serves ConnectionError (registry unreachable). -/
def respAt : List HttpResult → Nat → HttpResult
  | [], _ => HttpResult.connError
  | r :: _, 0 => r
  | _ :: rest, Nat.succ i => respAt rest i

/-- The retry loop of ServiceDiscoveryClient.register (service_discovery.py
lines 117-159): up to the given number of attempts, return at the first 200
response (everything else - non-200 status, ConnectionError, other
exception - is caught and retried), sleeping retry_delay seconds after a
failed attempt unless it was the last one. Returns the success flag and the
trace of transport calls and sleeps. -/
def registerLoop (retryDelay : Nat) : List HttpResult → Nat → Bool × List Ev
  | _, 0 => (false, [])
  | resps, Nat.succ n =>
    if respAt resps 0 = HttpResult.status 200 then (true, [Ev.regCall])
    else if n = 0 then (false, [Ev.regCall])
    else
      let q := registerLoop retryDelay resps.tail n
      (q.1, Ev.regCall :: Ev.sleep retryDelay :: q.2)

/-- ServiceDiscoveryClient.register (service_discovery.py lines 106-164):
runs the retry loop; on success sets _registered to True (line 134),
otherwise leaves the state unchanged and returns False. -/
def register (s : SDState) (maxRetries retryDelay : Nat) (resps : List HttpResult) :
    Bool × SDState × List Ev :=
  let q := registerLoop retryDelay resps maxRetries
  (q.1, if q.1 then { s with registered := true } else s, q.2)

/-- ServiceDiscoveryClient.stop_heartbeat (service_discovery.py lines
272-276): if a heartbeat thread is alive, signal it and join; otherwise do
nothing. -/
def stop_heartbeat (s : SDState) : SDState :=
  if s.hbActive ≠ 0 then { s with hbActive := 0 } else s

/-- ServiceDiscoveryClient.start_heartbeat (service_discovery.py lines
258-270): if a heartbeat thread is already alive, log and return without
creating one; otherwise start a new heartbeat thread. -/
def start_heartbeat (s : SDState) : SDState :=
  if s.hbActive ≠ 0 then s else { s with hbActive := s.hbActive + 1 }

/-- ServiceDiscoveryClient.deregister (service_discovery.py lines 166-198):
short-circuits to True when not registered; otherwise stops the heartbeat
thread, issues the DELETE call once, clears _registered only on a 200
response, and returns False on any non-200 status or exception (the
exception is caught, lines 196-198). -/
def deregister (s : SDState) (resp : HttpResult) : Bool × SDState × List Ev :=
  if s.registered = false then (true, s, [])
  else
    let s1 := stop_heartbeat s
    match resp with
    | HttpResult.status code =>
      if code = 200 then (true, { s1 with registered := false }, [Ev.deregCall])
      else (false, s1, [Ev.deregCall])
    | HttpResult.connError => (false, s1, [Ev.deregCall])
    | HttpResult.exn => (false, s1, [Ev.deregCall])

/-- Sequential composition of repeated deregister invocations, one transport
response oracle per invocation, accumulating the trace. -/
def deregisterSeq : SDState → List HttpResult → SDState × List Ev
  | s, [] => (s, [])
  | s, r :: rs =>
    let q := deregister s r
    let q2 := deregisterSeq q.2.1 rs
    (q2.1, q.2.2 ++ q2.2)

/-- ServiceDiscoveryClient.send_heartbeat (service_discovery.py lines
200-246): POSTs a heartbeat; 200 means success; 404 clears _registered and
immediately calls register with max_retries=3, retry_delay=2 inline (lines
228-234); any other status, ConnectionError or exception is a failure that
leaves the state alone. The heartbeat thread count is never touched. -/
def send_heartbeat (s : SDState) (hbResp : HttpResult) (regResps : List HttpResult) :
    Bool × SDState × List Ev :=
  match hbResp with
  | HttpResult.status code =>
    if code = 200 then (true, s, [Ev.hbCall])
    else if code = 404 then
      let s1 : SDState := { s with registered := false }
      let q := register s1 3 2 regResps
      (q.1, q.2.1, Ev.hbCall :: q.2.2)
    else (false, s, [Ev.hbCall])
  | HttpResult.connError => (false, s, [Ev.hbCall])
  | HttpResult.exn => (false, s, [Ev.hbCall])

/-- Operations a caller can perform on the heartbeat scheduler. -/
inductive HbOp where
  | start
  | stop
deriving DecidableEq

def applyHbOp (s : SDState) : HbOp → SDState
  | HbOp.start => start_heartbeat s
  | HbOp.stop => stop_heartbeat s

def runHbOps (s : SDState) (ops : List HbOp) : SDState :=
  ops.foldl applyHbOp s

/-- The error classes of auth_connector/exceptions.py. -/
inductive AuthErr where
  | permissionDenied (permission : String) (userId : Option String)
  | invalidToken (msg : String)
  | authServiceUnavailable (msg : String)
  | configurationError (msg : String)
deriving DecidableEq

/-- Configuration stored by ServiceDiscoveryClient.__init__
(service_discovery.py lines 44-81). -/
structure ClientConfig where
  service_key : String
  internal_url : String
  registry_url : String
  container_name : String
  health_check_path : String
  heartbeat_interval : Nat
  metadata : List (String × String)
deriving DecidableEq

/-- ServiceDiscoveryClient.__init__ (service_discovery.py lines 44-81):
stores every argument unchanged (container_name falls back to the host
identifier, metadata to the empty map), initialises _registered to False
with no heartbeat thread, and arms the shutdown hooks. It performs no
validation of any argument and cannot fail, hence always returns ok. -/
def mkClient (service_key internal_url registry_url : String)
    (container_name : Option String) (hostName : String)
    (health_check_path : String) (heartbeat_interval : Nat)
    (metadata : Option (List (String × String))) :
    Except AuthErr (ClientConfig × SDState) :=
  Except.ok
    ({ service_key := service_key
       internal_url := internal_url
       registry_url := registry_url
       container_name := container_name.getD hostName
       health_check_path := health_check_path
       heartbeat_interval := heartbeat_interval
       metadata := metadata.getD [] },
     { registered := false, hbActive := 0 })

/-- Whether an Except value is a success. -/
def exceptIsOk {ε α : Type} : Except ε α → Bool
  | Except.ok _ => true
  | Except.error _ => false

/-- Cache state of AuthClient: the _cache dict (key to permission list) and
the _cache_ttl dict (key to expiry time in seconds). -/
structure AuthCacheState where
  cache : List (String × List String)
  ttl : List (String × Nat)
deriving DecidableEq

/-- Dict assignment on an association list: overwrite the existing binding
for the key or append a new one. -/
def assocSet (l : List (String × α)) (k : String) (v : α) : List (String × α) :=
  match l with
  | [] => [(k, v)]
  | p :: rest => if p.1 = k then (k, v) :: rest else p :: assocSet rest k v

/-- AuthClient._is_cached (auth_client.py lines 119-125): the key must be in
both dicts and the current time must be strictly before the expiry. -/
def isCached (st : AuthCacheState) (now : Nat) (key : String) : Bool :=
  match st.cache.lookup key, st.ttl.lookup key with
  | some _, some t => decide (now < t)
  | _, _ => false

/-- Outcome of the GET to the permissions endpoint as seen by
get_user_permissions: a 200 whose body carries a permission list, a 404, or
any requests.RequestException (connection error, timeout, or the HTTPError
raised by raise_for_status on another status). -/
inductive FetchResult where
  | ok (permissions : List String)
  | notFound
  | failure
deriving DecidableEq

/-- AuthClient.get_user_permissions (auth_client.py lines 25-53). Returns
the permission list, the new cache state, and whether a transport call was
made. A fresh cache hit (unless force_refresh) is served locally. On 404
the function returns the empty list WITHOUT caching it (line 38). On success
it caches the list with expiry now plus 300 seconds (five minutes). On
RequestException it returns the raw _cache entry if present - with no TTL
check - and the empty list otherwise (line 53); it never raises. -/
def get_user_permissions (st : AuthCacheState) (now : Nat) (user_id : String)
    (force_refresh : Bool) (resp : FetchResult) :
    List String × AuthCacheState × Bool :=
  let cache_key := "permissions:" ++ user_id
  if !force_refresh && isCached st now cache_key then
    ((st.cache.lookup cache_key).getD [], st, false)
  else
    match resp with
    | FetchResult.notFound => ([], st, true)
    | FetchResult.ok permissions =>
      (permissions,
       { cache := assocSet st.cache cache_key permissions
         ttl := assocSet st.ttl cache_key (now + 300) }, true)
    | FetchResult.failure => ((st.cache.lookup cache_key).getD [], st, true)

/-- UserContext (auth_middleware.py lines 19-31), the fields the permission
gate reads. -/
structure UserContext where
  user_id : String
  username : String
  full_name : String
  roles : List String
  permissions : List String
  is_admin : Bool
deriving DecidableEq

/-- UserContext.has_permission (auth_middleware.py lines 33-35): membership
in the permission list. -/
def has_permission (u : UserContext) (permission : String) : Bool :=
  u.permissions.contains permission

/-- Result of a wrapped handler call: either the wrapped handler ran and
produced its value, or the decorator rejected the request with an HTTP
status, an error code string, and optionally the required permission echoed
for diagnostics. -/
inductive GateResult (α : Type) where
  | handler (a : α)
  | rejected (status : Nat) (code : String) (required_permission : Option String)
deriving DecidableEq

/-- require_permission (auth_middleware.py lines 193-221): no current user
gives 401 AUTH_REQUIRED; an admin passes when allow_admin; a user lacking
the permission gives 403 PERMISSION_DENIED carrying the permission;
otherwise the wrapped handler runs unchanged. -/
def require_permission {α : Type} (permission : String) (allow_admin : Bool)
    (user : Option UserContext) (f : α) : GateResult α :=
  match user with
  | none => GateResult.rejected 401 "AUTH_REQUIRED" none
  | some u =>
    if allow_admin && u.is_admin then GateResult.handler f
    else if !(has_permission u permission) then
      GateResult.rejected 403 "PERMISSION_DENIED" (some permission)
    else GateResult.handler f

/-- Request headers as a string-to-string mapping. -/
abbrev Headers := List (String × String)

/-- Python truthiness of a dict.get result: present and non-empty. -/
def truthy : Option String → Bool
  | none => false
  | some s => !(s = "")

/-- Which extraction strategy AuthMiddleware.extract_user_context dispatches
to; the three sub-extractors themselves parse the payload and are kept
abstract here since the claims concern only strategy selection. -/
inductive Extraction where
  | fromJwt (token : String)
  | fromGatewayHeaders
  | fromInternalToken (token : String)
  | noIdentity
deriving DecidableEq

/-- AuthMiddleware.extract_user_context (auth_middleware.py lines 93-114):
Method 1 when the Authorization header is truthy and starts with the Bearer
marker (the token is the rest of the header); Method 2 when both X-User-Id
and X-User-Name are truthy; Method 3 when X-Internal-Auth is truthy;
otherwise None. -/
def extract_user_context (headers : Headers) : Extraction :=
  let auth := headers.lookup "Authorization"
  if truthy auth && (auth.getD "").startsWith "Bearer " then
    Extraction.fromJwt ((auth.getD "").drop 7)
  else if truthy (headers.lookup "X-User-Id") && truthy (headers.lookup "X-User-Name") then
    Extraction.fromGatewayHeaders
  else if truthy (headers.lookup "X-Internal-Auth") then
    Extraction.fromInternalToken ((headers.lookup "X-Internal-Auth").getD "")
  else
    Extraction.noIdentity

/-! Helper lemmas about the register retry loop. -/

theorem respAt_tail (resps : List HttpResult) (i : Nat) :
    respAt resps.tail i = respAt resps (i + 1) := by
  cases resps <;> rfl

theorem registerLoop_calls (d : Nat) :
    ∀ (n : Nat) (resps : List HttpResult), 1 ≤ n →
      1 ≤ ((registerLoop d resps n).2.countP isRegCall) ∧
      ((registerLoop d resps n).2.countP isRegCall) ≤ n := by
  intro n
  induction n with
  | zero => intro resps h; omega
  | succ m ih =>
    intro resps _
    by_cases h200 : respAt resps 0 = HttpResult.status 200
    · simp [registerLoop, h200, List.countP_cons, isRegCall]
    · rcases Nat.eq_zero_or_pos m with hm | hm
      · subst hm
        simp [registerLoop, h200, List.countP_cons, isRegCall]
      · have hne : m ≠ 0 := Nat.pos_iff_ne_zero.mp hm
        obtain ⟨h1, h2⟩ := ih resps.tail hm
        simp [registerLoop, h200, hne, List.countP_cons, isRegCall]
        omega

theorem registerLoop_sleeps (d : Nat) :
    ∀ (n : Nat) (resps : List HttpResult), 1 ≤ n →
      ((registerLoop d resps n).2.countP isSleep) + 1 =
        ((registerLoop d resps n).2.countP isRegCall) := by
  intro n
  induction n with
  | zero => intro resps h; omega
  | succ m ih =>
    intro resps _
    by_cases h200 : respAt resps 0 = HttpResult.status 200
    · simp [registerLoop, h200, List.countP_cons, isRegCall, isSleep]
    · rcases Nat.eq_zero_or_pos m with hm | hm
      · subst hm
        simp [registerLoop, h200, List.countP_cons, isRegCall, isSleep]
      · have hne : m ≠ 0 := Nat.pos_iff_ne_zero.mp hm
        have h1 := ih resps.tail hm
        simp [registerLoop, h200, hne, List.countP_cons, isRegCall, isSleep]
        omega

theorem registerLoop_sleep_vals (d : Nat) :
    ∀ (n : Nat) (resps : List HttpResult) (k : Nat),
      Ev.sleep k ∈ (registerLoop d resps n).2 → k = d := by
  intro n
  induction n with
  | zero => intro resps k hmem; simp [registerLoop] at hmem
  | succ m ih =>
    intro resps k hmem
    by_cases h200 : respAt resps 0 = HttpResult.status 200
    · simp [registerLoop, h200] at hmem
    · rcases Nat.eq_zero_or_pos m with hm | hm
      · subst hm
        simp [registerLoop, h200] at hmem
      · have hne : m ≠ 0 := Nat.pos_iff_ne_zero.mp hm
        simp [registerLoop, h200, hne] at hmem
        rcases hmem with h | h
        · exact h
        · exact ih resps.tail k h

theorem registerLoop_succ_iff (d : Nat) :
    ∀ (n : Nat) (resps : List HttpResult),
      (registerLoop d resps n).1 = true ↔
        ∃ i, i < n ∧ respAt resps i = HttpResult.status 200 := by
  intro n
  induction n with
  | zero =>
    intro resps
    simp [registerLoop]
  | succ m ih =>
    intro resps
    by_cases h200 : respAt resps 0 = HttpResult.status 200
    · simp only [registerLoop, h200, if_true]
      constructor
      · intro _; exact ⟨0, Nat.succ_pos m, h200⟩
      · intro _; trivial
    · rcases Nat.eq_zero_or_pos m with hm | hm
      · subst hm
        simp only [registerLoop, h200, ite_false, if_pos rfl]
        constructor
        · intro h; cases h
        · rintro ⟨i, hi, hresp⟩
          interval_cases i
          exact absurd hresp h200
      · have hne : m ≠ 0 := Nat.pos_iff_ne_zero.mp hm
        have hih := ih resps.tail
        simp only [registerLoop, h200, ite_false, hne, if_neg hne]
        constructor
        · intro h
          obtain ⟨i, hi, hresp⟩ := hih.mp h
          rw [respAt_tail] at hresp
          exact ⟨i + 1, by omega, hresp⟩
        · rintro ⟨i, hi, hresp⟩
          cases i with
          | zero => exact absurd hresp h200
          | succ j =>
            refine hih.mpr ⟨j, by omega, ?_⟩
            rw [respAt_tail]
            exact hresp

theorem registerLoop_fail_calls (d : Nat) :
    ∀ (n : Nat) (resps : List HttpResult), 1 ≤ n →
      (registerLoop d resps n).1 = false →
      ((registerLoop d resps n).2.countP isRegCall) = n := by
  intro n
  induction n with
  | zero => intro resps h; omega
  | succ m ih =>
    intro resps _ hfail
    by_cases h200 : respAt resps 0 = HttpResult.status 200
    · simp [registerLoop, h200] at hfail
    · rcases Nat.eq_zero_or_pos m with hm | hm
      · subst hm
        simp [registerLoop, h200, List.countP_cons, isRegCall]
      · have hne : m ≠ 0 := Nat.pos_iff_ne_zero.mp hm
        simp only [registerLoop, h200, ite_false, if_neg hne] at hfail ⊢
        have := ih resps.tail hm hfail
        simp [List.countP_cons, isRegCall]
        omega

theorem registerLoop_last_is_ok (d : Nat) :
    ∀ (n : Nat) (resps : List HttpResult),
      (registerLoop d resps n).1 = true →
      respAt resps (((registerLoop d resps n).2.countP isRegCall) - 1) =
        HttpResult.status 200 := by
  intro n
  induction n with
  | zero => intro resps h; simp [registerLoop] at h
  | succ m ih =>
    intro resps hok
    by_cases h200 : respAt resps 0 = HttpResult.status 200
    · simp [registerLoop, h200, List.countP_cons, isRegCall]
    · rcases Nat.eq_zero_or_pos m with hm | hm
      · subst hm
        simp [registerLoop, h200] at hok
      · have hne : m ≠ 0 := Nat.pos_iff_ne_zero.mp hm
        simp only [registerLoop, h200, ite_false, if_neg hne] at hok ⊢
        have hrec := ih resps.tail hok
        have hc := registerLoop_calls d m resps.tail hm
        have hcount :
            (List.countP isRegCall (Ev.regCall :: Ev.sleep d :: (registerLoop d resps.tail m).2)) =
              (List.countP isRegCall (registerLoop d resps.tail m).2) + 1 := by
          simp [List.countP_cons, isRegCall]
        rw [hcount]
        have hpos : 1 ≤ List.countP isRegCall (registerLoop d resps.tail m).2 := hc.1
        have heq : (List.countP isRegCall (registerLoop d resps.tail m).2) + 1 - 1 =
            ((List.countP isRegCall (registerLoop d resps.tail m).2) - 1) + 1 := by omega
        rw [heq, ← respAt_tail]
        exact hrec

theorem registerLoop_before_last_fails (d : Nat) :
    ∀ (n : Nat) (resps : List HttpResult) (i : Nat),
      i + 1 < ((registerLoop d resps n).2.countP isRegCall) →
      respAt resps i ≠ HttpResult.status 200 := by
  intro n
  induction n with
  | zero => intro resps i hlt; simp [registerLoop] at hlt
  | succ m ih =>
    intro resps i hlt
    by_cases h200 : respAt resps 0 = HttpResult.status 200
    · simp [registerLoop, h200, List.countP_cons, isRegCall] at hlt
    · rcases Nat.eq_zero_or_pos m with hm | hm
      · subst hm
        simp [registerLoop, h200, List.countP_cons, isRegCall] at hlt
      · have hne : m ≠ 0 := Nat.pos_iff_ne_zero.mp hm
        simp only [registerLoop, h200, ite_false, if_neg hne, List.countP_cons,
          isRegCall, isSleep] at hlt
        have hlt2 : i + 1 < (List.countP isRegCall (registerLoop d resps.tail m).2) + 1 := by
          simpa [isRegCall] using hlt
        cases i with
        | zero => exact h200
        | succ j =>
          have : j + 1 < List.countP isRegCall (registerLoop d resps.tail m).2 := by omega
          have hrec := ih resps.tail j this
          rw [respAt_tail] at hrec
          exact hrec

/-! Helper lemmas about the heartbeat thread and deregistration. -/

theorem stop_heartbeat_hbActive (s : SDState) : (stop_heartbeat s).hbActive = 0 := by
  unfold stop_heartbeat
  by_cases h : s.hbActive ≠ 0
  · simp [h]
  · simp at h
    simp [h]

theorem stop_heartbeat_registered (s : SDState) :
    (stop_heartbeat s).registered = s.registered := by
  unfold stop_heartbeat
  by_cases h : s.hbActive ≠ 0 <;> simp [h]

theorem deregister_not_registered (s : SDState) (r : HttpResult)
    (h : s.registered = false) : deregister s r = (true, s, []) := by
  simp [deregister, h]

theorem deregisterSeq_not_registered (s : SDState) (rs : List HttpResult)
    (h : s.registered = false) : deregisterSeq s rs = (s, []) := by
  induction rs with
  | nil => rfl
  | cons r rest ih =>
    simp [deregisterSeq, deregister_not_registered s r h, ih]

theorem applyHbOp_le_one (s : SDState) (op : HbOp) (h : s.hbActive ≤ 1) :
    (applyHbOp s op).hbActive ≤ 1 := by
  cases op with
  | start =>
    simp only [applyHbOp, start_heartbeat]
    by_cases h0 : s.hbActive ≠ 0
    · simp [h0]; omega
    · simp at h0
      simp [h0]
  | stop =>
    simp only [applyHbOp]
    rw [stop_heartbeat_hbActive]
    omega

theorem runHbOps_le_one (ops : List HbOp) :
    ∀ s : SDState, s.hbActive ≤ 1 → (runHbOps s ops).hbActive ≤ 1 := by
  induction ops with
  | nil => intro s h; exact h
  | cons op rest ih =>
    intro s h
    exact ih (applyHbOp s op) (applyHbOp_le_one s op h)

/-! Helper lemmas about the association-list cache. -/

theorem lookup_assocSet {α : Type} (l : List (String × α)) (k : String) (v : α) :
    (assocSet l k v).lookup k = some v := by
  induction l with
  | nil => simp [assocSet, List.lookup]
  | cons p rest ih =>
    by_cases hp : p.1 = k
    · simp [assocSet, hp, List.lookup]
    · have hne : (k == p.1) = false := by
        simp [Ne.symm hp]
      simp [assocSet, hp, List.lookup, hne, ih]

theorem get_user_permissions_hit (st : AuthCacheState) (now : Nat) (u : String)
    (resp : FetchResult) (h : isCached st now ("permissions:" ++ u) = true) :
    get_user_permissions st now u false resp =
      ((st.cache.lookup ("permissions:" ++ u)).getD [], st, false) := by
  simp [get_user_permissions, h]

/-- C4: for every maxRetries at least 1, register attempts the transport call
at most maxRetries times, sleeps exactly one retry_delay between consecutive
attempts and never after the final one, succeeds exactly when some attempt
within the budget is answered 200 (connection errors and non-200 statuses
alike merely consume an attempt; nothing is raised), stops at the first 200
setting the state to registered, and after exhausting all attempts returns
false leaving the state unchanged with exactly maxRetries calls made. -/
theorem register_retry_contract (s : SDState) (maxRetries retryDelay : Nat)
    (resps : List HttpResult) (hmr : 1 ≤ maxRetries) :
    1 ≤ (register s maxRetries retryDelay resps).2.2.countP isRegCall ∧
    (register s maxRetries retryDelay resps).2.2.countP isRegCall ≤ maxRetries ∧
    (register s maxRetries retryDelay resps).2.2.countP isSleep + 1 =
      (register s maxRetries retryDelay resps).2.2.countP isRegCall ∧
    (∀ k, Ev.sleep k ∈ (register s maxRetries retryDelay resps).2.2 → k = retryDelay) ∧
    ((register s maxRetries retryDelay resps).1 = true ↔
      ∃ i, i < maxRetries ∧ respAt resps i = HttpResult.status 200) ∧
    ((register s maxRetries retryDelay resps).1 = true →
      (register s maxRetries retryDelay resps).2.1.registered = true ∧
      respAt resps ((register s maxRetries retryDelay resps).2.2.countP isRegCall - 1) =
        HttpResult.status 200) ∧
    (∀ i, i + 1 < (register s maxRetries retryDelay resps).2.2.countP isRegCall →
      respAt resps i ≠ HttpResult.status 200) ∧
    ((register s maxRetries retryDelay resps).1 = false →
      (register s maxRetries retryDelay resps).2.1 = s ∧
      (register s maxRetries retryDelay resps).2.2.countP isRegCall = maxRetries) := by
  refine ⟨?_, ?_, ?_, ?_, ?_, ?_, ?_, ?_⟩
  · exact (registerLoop_calls retryDelay maxRetries resps hmr).1
  · exact (registerLoop_calls retryDelay maxRetries resps hmr).2
  · exact registerLoop_sleeps retryDelay maxRetries resps hmr
  · exact fun k hk => registerLoop_sleep_vals retryDelay maxRetries resps k hk
  · exact registerLoop_succ_iff retryDelay maxRetries resps
  · intro h
    simp only [register] at h ⊢
    refine ⟨by simp [h], ?_⟩
    exact registerLoop_last_is_ok retryDelay maxRetries resps h
  · exact fun i hi => registerLoop_before_last_fails retryDelay maxRetries resps i hi
  · intro h
    simp only [register] at h ⊢
    refine ⟨by simp [h], ?_⟩
    exact registerLoop_fail_calls retryDelay maxRetries resps hmr h

/-- C4 witness: the scenario of the claim - two connection-refused attempts
then a 200 with max_retries 10 and retry_delay 3 gives success, registered
state, exactly 3 transport calls and 2 sleeps; the success criterion is the
instance of the contract. -/
theorem register_retry_contract_witness :
    1 ≤ 10 ∧
    ((register ⟨false, 0⟩ 10 3
        [HttpResult.connError, HttpResult.connError, HttpResult.status 200]).1 = true ↔
      ∃ i, i < 10 ∧
        respAt [HttpResult.connError, HttpResult.connError, HttpResult.status 200] i =
          HttpResult.status 200) ∧
    (register ⟨false, 0⟩ 10 3
        [HttpResult.connError, HttpResult.connError, HttpResult.status 200]).1 = true ∧
    (register ⟨false, 0⟩ 10 3
        [HttpResult.connError, HttpResult.connError, HttpResult.status 200]).2.1.registered
        = true ∧
    (register ⟨false, 0⟩ 10 3
        [HttpResult.connError, HttpResult.connError, HttpResult.status 200]).2.2.countP
        isRegCall = 3 ∧
    (register ⟨false, 0⟩ 10 3
        [HttpResult.connError, HttpResult.connError, HttpResult.status 200]).2.2.countP
        isSleep = 2 :=
  ⟨by decide,
   (register_retry_contract ⟨false, 0⟩ 10 3
      [HttpResult.connError, HttpResult.connError, HttpResult.status 200]
      (by decide)).2.2.2.2.1,
   by decide, by decide, by decide, by decide⟩

/-- C1 counterexample: from the registered state, a deregister call whose
transport response is a 500 leaves the client STILL registered and returns
false - the code clears _registered only on a 200 response, contradicting
the claim that the state becomes Deregistered regardless of the outcome. -/
theorem deregister_failure_leaves_registered_cex :
    (deregister ⟨true, 1⟩ (HttpResult.status 500)).2.1.registered = true ∧
    (deregister ⟨true, 1⟩ (HttpResult.status 500)).1 = false := by
  decide

/-- C1 amended: from the registered state, deregister stops the heartbeat
scheduler first, issues exactly one transport deregister call, and sets the
state to Deregistered exactly when that call returns 200; on a non-200
status or an exception it returns false and the client remains registered
(the exception is swallowed, so shutdown still proceeds). -/
theorem deregister_contract (s : SDState) (resp : HttpResult)
    (h : s.registered = true) :
    (deregister s resp).2.1.hbActive = 0 ∧
    (deregister s resp).2.2.countP isDeregCall = 1 ∧
    ((deregister s resp).1 = true ↔ resp = HttpResult.status 200) ∧
    ((deregister s resp).2.1.registered = false ↔ resp = HttpResult.status 200) := by
  have hreg : ¬s.registered = false := by simp [h]
  cases resp with
  | status code =>
    by_cases hc : code = 200
    · subst hc
      simp [deregister, hreg, stop_heartbeat_hbActive, isDeregCall, List.countP_cons]
    · have hne : HttpResult.status code = HttpResult.status 200 ↔ False := by
        simp [hc]
      simp [deregister, hreg, hc, stop_heartbeat_hbActive, stop_heartbeat_registered, h,
        isDeregCall, List.countP_cons, hne]
  | connError =>
    simp [deregister, hreg, stop_heartbeat_hbActive, stop_heartbeat_registered, h,
      isDeregCall, List.countP_cons]
  | exn =>
    simp [deregister, hreg, stop_heartbeat_hbActive, stop_heartbeat_registered, h,
      isDeregCall, List.countP_cons]

/-- C1 witness: the amended contract instantiated at a registered client with
one live heartbeat thread and a 200 transport response. -/
theorem deregister_contract_witness :
    (⟨true, 1⟩ : SDState).registered = true ∧
    ((deregister ⟨true, 1⟩ (HttpResult.status 200)).2.1.hbActive = 0 ∧
     (deregister ⟨true, 1⟩ (HttpResult.status 200)).2.2.countP isDeregCall = 1 ∧
     ((deregister ⟨true, 1⟩ (HttpResult.status 200)).1 = true ↔
        HttpResult.status 200 = HttpResult.status 200) ∧
     ((deregister ⟨true, 1⟩ (HttpResult.status 200)).2.1.registered = false ↔
        HttpResult.status 200 = HttpResult.status 200)) :=
  ⟨by decide, deregister_contract ⟨true, 1⟩ (HttpResult.status 200) (by decide)⟩

/-- C2 counterexample: two repeated deregister invocations on a registered
client where the first transport call answers 500 and the second answers 200
invoke the transport deregister endpoint TWICE - the failed first call leaves
_registered set, so the claim that every sequence of invocations calls the
endpoint exactly once is false. -/
theorem deregister_seq_double_call_cex :
    (deregisterSeq ⟨true, 1⟩ [HttpResult.status 500, HttpResult.status 200]).2.countP
      isDeregCall = 2 := by
  decide

/-- C2 amended: once a deregister invocation succeeds with a 200 (the state
transition away from registered), the transport has been called exactly once
and every later invocation - from exit hooks, signal handlers or direct
calls, executed sequentially - is a no-op returning success with no further
transport call; if instead an invocation's transport call fails, the client
stays registered and a later invocation issues another transport call (the
endpoint is not called exactly once in general). -/
theorem deregister_idempotent_after_success (s : SDState) (rs : List HttpResult)
    (h : s.registered = true) :
    (deregister s (HttpResult.status 200)).1 = true ∧
    (deregister s (HttpResult.status 200)).2.2.countP isDeregCall = 1 ∧
    (deregisterSeq (deregister s (HttpResult.status 200)).2.1 rs).2.countP
      isDeregCall = 0 ∧
    (∀ r, (deregister (deregister s (HttpResult.status 200)).2.1 r).1 = true ∧
      (deregister (deregister s (HttpResult.status 200)).2.1 r).2.1 =
        (deregister s (HttpResult.status 200)).2.1) := by
  have hc := deregister_contract s (HttpResult.status 200) h
  have hderegd : (deregister s (HttpResult.status 200)).2.1.registered = false :=
    hc.2.2.2.mpr rfl
  refine ⟨hc.2.2.1.mpr rfl, hc.2.1, ?_, ?_⟩
  · rw [deregisterSeq_not_registered _ rs hderegd]
    rfl
  · intro r
    rw [deregister_not_registered _ r hderegd]
    exact ⟨rfl, rfl⟩

/-- C2 witness: the amended statement instantiated at a registered client, a
200 on the first invocation, and two further invocations. -/
theorem deregister_idempotent_after_success_witness :
    (⟨true, 1⟩ : SDState).registered = true ∧
    ((deregister ⟨true, 1⟩ (HttpResult.status 200)).1 = true ∧
     (deregister ⟨true, 1⟩ (HttpResult.status 200)).2.2.countP isDeregCall = 1 ∧
     (deregisterSeq (deregister ⟨true, 1⟩ (HttpResult.status 200)).2.1
        [HttpResult.status 200, HttpResult.connError]).2.countP isDeregCall = 0 ∧
     (∀ r, (deregister (deregister ⟨true, 1⟩ (HttpResult.status 200)).2.1 r).1 = true ∧
       (deregister (deregister ⟨true, 1⟩ (HttpResult.status 200)).2.1 r).2.1 =
         (deregister ⟨true, 1⟩ (HttpResult.status 200)).2.1)) :=
  ⟨by decide,
   deregister_idempotent_after_success ⟨true, 1⟩
     [HttpResult.status 200, HttpResult.connError] (by decide)⟩

theorem send_heartbeat_404_eq (s : SDState) (rr : List HttpResult) :
    send_heartbeat s (HttpResult.status 404) rr =
      ((registerLoop 2 rr 3).1,
       { registered := (registerLoop 2 rr 3).1, hbActive := s.hbActive },
       Ev.hbCall :: (registerLoop 2 rr 3).2) := by
  simp only [send_heartbeat, register]
  norm_num
  by_cases hb : (registerLoop 2 rr 3).1 = true <;> simp [hb]

/-- C3: a heartbeat tick answered 404 leaves the heartbeat thread count
untouched (the loop keeps running), makes between 1 and 3 re-registration
transport calls with at most 2 sleeps of exactly 2 seconds each (the inline
register call with max_retries 3 and retry_delay 2), succeeds exactly when
some of the first 3 re-register attempts is answered 200, and leaves the
client registered exactly when that re-registration succeeded (in particular
the state is unregistered when it failed, having been cleared before the
re-register attempt). -/
theorem heartbeat_404_reregister (s : SDState) (regResps : List HttpResult) :
    (send_heartbeat s (HttpResult.status 404) regResps).2.1.hbActive = s.hbActive ∧
    1 ≤ (send_heartbeat s (HttpResult.status 404) regResps).2.2.countP isRegCall ∧
    (send_heartbeat s (HttpResult.status 404) regResps).2.2.countP isRegCall ≤ 3 ∧
    (send_heartbeat s (HttpResult.status 404) regResps).2.2.countP isSleep ≤ 2 ∧
    (∀ k, Ev.sleep k ∈ (send_heartbeat s (HttpResult.status 404) regResps).2.2 → k = 2) ∧
    ((send_heartbeat s (HttpResult.status 404) regResps).1 = true ↔
      ∃ i, i < 3 ∧ respAt regResps i = HttpResult.status 200) ∧
    (send_heartbeat s (HttpResult.status 404) regResps).2.1.registered =
      (send_heartbeat s (HttpResult.status 404) regResps).1 := by
  have hcl := registerLoop_calls 2 3 regResps (by decide)
  have hsl := registerLoop_sleeps 2 3 regResps (by decide)
  refine ⟨?_, ?_, ?_, ?_, ?_, ?_, ?_⟩
  · simp [send_heartbeat_404_eq]
  · simp only [send_heartbeat_404_eq, List.countP_cons, isRegCall]
    simpa using hcl.1
  · simp only [send_heartbeat_404_eq, List.countP_cons, isRegCall]
    simpa using hcl.2
  · obtain ⟨hcl1, hcl2⟩ := hcl
    have h1 : (send_heartbeat s (HttpResult.status 404) regResps).2.2.countP isSleep =
        (registerLoop 2 regResps 3).2.countP isSleep := by
      simp [send_heartbeat_404_eq, List.countP_cons, isSleep]
    rw [h1]
    omega
  · intro k hk
    simp only [send_heartbeat_404_eq, List.mem_cons] at hk
    rcases hk with h | h
    · cases h
    · exact registerLoop_sleep_vals 2 3 regResps k h
  · simp only [send_heartbeat_404_eq]
    exact registerLoop_succ_iff 2 3 regResps
  · simp [send_heartbeat_404_eq]

/-- C3 witness: a registered client with one live heartbeat thread, a 404
heartbeat response and a 200 on the first re-register attempt keeps its
heartbeat thread, and ends registered exactly as the tick reports success. -/
theorem heartbeat_404_reregister_witness :
    (send_heartbeat ⟨true, 1⟩ (HttpResult.status 404)
        [HttpResult.status 200]).2.1.hbActive = 1 ∧
    (send_heartbeat ⟨true, 1⟩ (HttpResult.status 404)
        [HttpResult.status 200]).2.1.registered =
      (send_heartbeat ⟨true, 1⟩ (HttpResult.status 404) [HttpResult.status 200]).1 ∧
    (send_heartbeat ⟨true, 1⟩ (HttpResult.status 404) [HttpResult.status 200]).1 = true :=
  ⟨(heartbeat_404_reregister ⟨true, 1⟩ [HttpResult.status 200]).1,
   (heartbeat_404_reregister ⟨true, 1⟩ [HttpResult.status 200]).2.2.2.2.2.2,
   by decide⟩

/-- C5: across any sequence of start_heartbeat / stop_heartbeat calls from a
state with at most one live heartbeat thread there is never more than one
live heartbeat thread; two successive start calls leave exactly one; a start
while a thread is live changes nothing (no second task is created); and a
stop when no thread was ever started is a no-op. -/
theorem heartbeat_single_task (s : SDState) (ops : List HbOp) (h : s.hbActive ≤ 1) :
    (runHbOps s ops).hbActive ≤ 1 ∧
    (start_heartbeat (start_heartbeat s)).hbActive = 1 ∧
    (s.hbActive ≠ 0 → start_heartbeat s = s) ∧
    (s.hbActive = 0 → stop_heartbeat s = s) := by
  refine ⟨runHbOps_le_one ops s h, ?_, ?_, ?_⟩
  · by_cases h0 : s.hbActive = 0
    · simp [start_heartbeat, h0]
    · have hs : start_heartbeat s = s := by simp [start_heartbeat, h0]
      rw [hs, hs]
      omega
  · intro h0
    simp [start_heartbeat, h0]
  · intro h0
    simp [stop_heartbeat, h0]

/-- C5 witness: a fresh client, two start calls in a row. -/
theorem heartbeat_single_task_witness :
    (⟨false, 0⟩ : SDState).hbActive ≤ 1 ∧
    ((runHbOps ⟨false, 0⟩ [HbOp.start, HbOp.start]).hbActive ≤ 1 ∧
     (start_heartbeat (start_heartbeat ⟨false, 0⟩)).hbActive = 1 ∧
     ((⟨false, 0⟩ : SDState).hbActive ≠ 0 →
        start_heartbeat ⟨false, 0⟩ = (⟨false, 0⟩ : SDState)) ∧
     ((⟨false, 0⟩ : SDState).hbActive = 0 →
        stop_heartbeat ⟨false, 0⟩ = (⟨false, 0⟩ : SDState))) :=
  ⟨by decide, heartbeat_single_task ⟨false, 0⟩ [HbOp.start, HbOp.start] (by decide)⟩

/-- C6 counterexample: with an empty cache, a permission lookup answered 404
returns the empty list but does NOT cache it - a second call for the same
user one second later (well within the 5-minute TTL) issues a new transport
call, contradicting the claim that the empty result is cached for the TTL. -/
theorem permissions_404_not_cached_cex :
    (get_user_permissions { cache := [], ttl := [] } 0 "u1" false
      FetchResult.notFound).1 = [] ∧
    (get_user_permissions
      (get_user_permissions { cache := [], ttl := [] } 0 "u1" false
        FetchResult.notFound).2.1
      1 "u1" false FetchResult.notFound).2.2 = true := by
  decide

/-- C6 amended: on a cache miss a 404 yields the empty list, makes a
transport call, and leaves the cache UNCHANGED (the empty result is not
cached, so a repeat call within the TTL hits the transport again); a non-404
success caches the returned list with expiry now plus 300 seconds, and a
second call for the same user before that expiry is served from the cache
with no transport call. -/
theorem permissions_404_uncached_success_cached (st : AuthCacheState)
    (now now2 : Nat) (u : String) (perms : List String) (resp2 : FetchResult)
    (hmiss : isCached st now ("permissions:" ++ u) = false)
    (hfresh : now2 < now + 300) :
    (get_user_permissions st now u false FetchResult.notFound).1 = [] ∧
    (get_user_permissions st now u false FetchResult.notFound).2.1 = st ∧
    (get_user_permissions st now u false FetchResult.notFound).2.2 = true ∧
    (get_user_permissions st now u false (FetchResult.ok perms)).1 = perms ∧
    (get_user_permissions st now u false (FetchResult.ok perms)).2.2 = true ∧
    (get_user_permissions (get_user_permissions st now u false (FetchResult.ok perms)).2.1
      now2 u false resp2).1 = perms ∧
    (get_user_permissions (get_user_permissions st now u false (FetchResult.ok perms)).2.1
      now2 u false resp2).2.2 = false := by
  have hc2 : (get_user_permissions st now u false
      (FetchResult.ok perms)).2.1.cache.lookup ("permissions:" ++ u) = some perms := by
    simp [get_user_permissions, hmiss, lookup_assocSet]
  have ht2 : (get_user_permissions st now u false
      (FetchResult.ok perms)).2.1.ttl.lookup ("permissions:" ++ u) = some (now + 300) := by
    simp [get_user_permissions, hmiss, lookup_assocSet]
  have hcache2 : isCached (get_user_permissions st now u false
      (FetchResult.ok perms)).2.1 now2 ("permissions:" ++ u) = true := by
    simp [isCached, hc2, ht2, hfresh]
  refine ⟨?_, ?_, ?_, ?_, ?_, ?_, ?_⟩
  · simp [get_user_permissions, hmiss]
  · simp [get_user_permissions, hmiss]
  · simp [get_user_permissions, hmiss]
  · simp [get_user_permissions, hmiss]
  · simp [get_user_permissions, hmiss]
  · rw [get_user_permissions_hit _ _ _ _ hcache2]
    simp [hc2]
  · rw [get_user_permissions_hit _ _ _ _ hcache2]

/-- C6 witness: empty cache, a 200 carrying one permission at time 0, the
second call 100 seconds later. -/
theorem permissions_404_uncached_success_cached_witness :
    isCached { cache := [], ttl := [] } 0 ("permissions:" ++ "u1") = false ∧
    100 < 0 + 300 ∧
    (get_user_permissions { cache := [], ttl := [] } 0 "u1" false
      FetchResult.notFound).2.1 = { cache := [], ttl := [] } ∧
    (get_user_permissions
      (get_user_permissions { cache := [], ttl := [] } 0 "u1" false
        (FetchResult.ok ["p1"])).2.1
      100 "u1" false FetchResult.failure).1 = ["p1"] ∧
    (get_user_permissions
      (get_user_permissions { cache := [], ttl := [] } 0 "u1" false
        (FetchResult.ok ["p1"])).2.1
      100 "u1" false FetchResult.failure).2.2 = false :=
  ⟨by decide, by decide,
   (permissions_404_uncached_success_cached { cache := [], ttl := [] } 0 100 "u1" ["p1"]
      FetchResult.failure (by decide) (by decide)).2.1,
   (permissions_404_uncached_success_cached { cache := [], ttl := [] } 0 100 "u1" ["p1"]
      FetchResult.failure (by decide) (by decide)).2.2.2.2.2.1,
   (permissions_404_uncached_success_cached { cache := [], ttl := [] } 0 100 "u1" ["p1"]
      FetchResult.failure (by decide) (by decide)).2.2.2.2.2.2⟩

/-- C7: when the transport call fails with a RequestException (connection
error, timeout, or the HTTPError from a non-2xx status) the lookup never
raises: the cache is left unchanged and the function returns the raw cached
entry for the user when one exists - with no TTL check, so an expired value
is still served - and the empty list when none exists; the same holds on a
forced refresh. -/
theorem permissions_failure_fallback (st : AuthCacheState) (now : Nat) (u : String)
    (h : isCached st now ("permissions:" ++ u) = false) :
    (get_user_permissions st now u false FetchResult.failure).2.1 = st ∧
    (get_user_permissions st now u false FetchResult.failure).1 =
      (st.cache.lookup ("permissions:" ++ u)).getD [] ∧
    (∀ v, st.cache.lookup ("permissions:" ++ u) = some v →
      (get_user_permissions st now u false FetchResult.failure).1 = v) ∧
    (st.cache.lookup ("permissions:" ++ u) = none →
      (get_user_permissions st now u false FetchResult.failure).1 = []) ∧
    (get_user_permissions st now u true FetchResult.failure).1 =
      (st.cache.lookup ("permissions:" ++ u)).getD [] := by
  refine ⟨?_, ?_, ?_, ?_, ?_⟩
  · simp [get_user_permissions, h]
  · simp [get_user_permissions, h]
  · intro v hv
    simp [get_user_permissions, h, hv]
  · intro hnone
    simp [get_user_permissions, h, hnone]
  · simp [get_user_permissions]

/-- C7 witness: a cache holding an EXPIRED entry (expiry 5, current time 10)
still yields the old permission list when the transport fails. -/
theorem permissions_failure_fallback_witness :
    isCached ⟨[("permissions:" ++ "u1", ["p1"])], [("permissions:" ++ "u1", 5)]⟩ 10
      ("permissions:" ++ "u1") = false ∧
    ((get_user_permissions ⟨[("permissions:" ++ "u1", ["p1"])],
        [("permissions:" ++ "u1", 5)]⟩ 10 "u1" false FetchResult.failure).2.1 =
      ⟨[("permissions:" ++ "u1", ["p1"])], [("permissions:" ++ "u1", 5)]⟩ ∧
     (get_user_permissions ⟨[("permissions:" ++ "u1", ["p1"])],
        [("permissions:" ++ "u1", 5)]⟩ 10 "u1" false FetchResult.failure).1 =
      (([("permissions:" ++ "u1", ["p1"])] :
          List (String × List String)).lookup ("permissions:" ++ "u1")).getD []) :=
  ⟨by decide,
   (permissions_failure_fallback ⟨[("permissions:" ++ "u1", ["p1"])],
      [("permissions:" ++ "u1", 5)]⟩ 10 "u1" (by decide)).1,
   (permissions_failure_fallback ⟨[("permissions:" ++ "u1", ["p1"])],
      [("permissions:" ++ "u1", 5)]⟩ 10 "u1" (by decide)).2.1⟩

/-- C8: for every handler wrapped by require_permission: a missing identity
gives a 401 with code AUTH_REQUIRED; an identity flagged admin with admin
bypass enabled runs the handler unchanged whatever its permissions; an
identity that is not admin-bypassed and lacks the permission gives a 403
with code PERMISSION_DENIED carrying that permission; otherwise the handler
runs unchanged. -/
theorem require_permission_gate (permission : String) (allow_admin : Bool)
    (u : UserContext) (f : Nat) :
    require_permission permission allow_admin (none : Option UserContext) f =
      GateResult.rejected 401 "AUTH_REQUIRED" none ∧
    (allow_admin = true → u.is_admin = true →
      require_permission permission allow_admin (some u) f = GateResult.handler f) ∧
    ((allow_admin && u.is_admin) = false → has_permission u permission = false →
      require_permission permission allow_admin (some u) f =
        GateResult.rejected 403 "PERMISSION_DENIED" (some permission)) ∧
    ((allow_admin && u.is_admin) = false → has_permission u permission = true →
      require_permission permission allow_admin (some u) f = GateResult.handler f) := by
  refine ⟨rfl, ?_, ?_, ?_⟩
  · intro ha hadm
    simp [require_permission, ha, hadm]
  · intro hby hperm
    simp [require_permission, hby, hperm]
  · intro hby hperm
    simp [require_permission, hby, hperm]

/-- C8 witness: the scenario of the spec - an identity holding only
billing.view, required permission billing.edit, admin bypass enabled but the
user not an admin, gives the 403 carrying billing.edit; and an admin
identity with no permissions passes. -/
theorem require_permission_gate_witness :
    ((true && (UserContext.is_admin ⟨"u1", "bob", "bob", [], ["billing.view"], false⟩))
        = false) ∧
    has_permission ⟨"u1", "bob", "bob", [], ["billing.view"], false⟩ "billing.edit"
        = false ∧
    require_permission "billing.edit" true
        (some ⟨"u1", "bob", "bob", [], ["billing.view"], false⟩) (7 : Nat) =
      GateResult.rejected 403 "PERMISSION_DENIED" (some "billing.edit") ∧
    require_permission "billing.view" true
        (some ⟨"u2", "eve", "eve", ["admin"], [], true⟩) (7 : Nat) =
      GateResult.handler 7 :=
  ⟨by decide, by decide,
   (require_permission_gate "billing.edit" true
      ⟨"u1", "bob", "bob", [], ["billing.view"], false⟩ 7).2.2.1 (by decide) (by decide),
   (require_permission_gate "billing.view" true
      ⟨"u2", "eve", "eve", ["admin"], [], true⟩ 7).2.1 rfl rfl⟩

/-- C9 counterexample: constructing a ServiceDiscoveryClient with an empty
service key succeeds - the constructor performs no validation and raises no
ConfigurationError, contradicting the claim that an empty service key fails
fast at construction time. -/
theorem mkClient_empty_key_ok_cex :
    exceptIsOk (mkClient "" "http://svc:8080" "http://auth-service:8080/api/registry"
      none "host-1" "/health" 30 none) = true := by
  decide

/-- C9 amended: construction always succeeds, for every service key
including the empty string: the constructor stores its arguments unchanged
(container name defaulting to the host identifier, metadata to the empty
map), starts unregistered with no heartbeat thread, and never raises
ConfigurationError or any other error. -/
theorem mkClient_no_validation (sk iu ru : String) (cn : Option String)
    (hn hp : String) (hi : Nat) (md : Option (List (String × String))) :
    exceptIsOk (mkClient sk iu ru cn hn hp hi md) = true ∧
    mkClient sk iu ru cn hn hp hi md =
      Except.ok
        ({ service_key := sk
           internal_url := iu
           registry_url := ru
           container_name := cn.getD hn
           health_check_path := hp
           heartbeat_interval := hi
           metadata := md.getD [] },
         { registered := false, hbActive := 0 }) :=
  ⟨rfl, rfl⟩

/-- C9 witness: the constructor applied to an ordinary configuration. -/
theorem mkClient_no_validation_witness :
    exceptIsOk (mkClient "svc-a" "http://svc-a:8080"
      "http://auth-service:8080/api/registry" none "host-1" "/health" 30 none) = true :=
  (mkClient_no_validation "svc-a" "http://svc-a:8080"
    "http://auth-service:8080/api/registry" none "host-1" "/health" 30 none).1

/-- C10: when no Bearer Authorization header is accepted, the
gateway-injected-header strategy applies exactly when both X-User-Id and
X-User-Name are present and non-empty; when that condition fails (for
instance only one of the two is present) extraction falls through to the
X-Internal-Auth strategy, and yields no identity when that header is absent
too. -/
theorem extract_dispatch (headers : Headers)
    (hnb : (truthy (headers.lookup "Authorization") &&
      ((headers.lookup "Authorization").getD "").startsWith "Bearer ") = false) :
    ((truthy (headers.lookup "X-User-Id") && truthy (headers.lookup "X-User-Name"))
        = true →
      extract_user_context headers = Extraction.fromGatewayHeaders) ∧
    ((truthy (headers.lookup "X-User-Id") && truthy (headers.lookup "X-User-Name"))
        = false →
      truthy (headers.lookup "X-Internal-Auth") = true →
      extract_user_context headers =
        Extraction.fromInternalToken ((headers.lookup "X-Internal-Auth").getD "")) ∧
    ((truthy (headers.lookup "X-User-Id") && truthy (headers.lookup "X-User-Name"))
        = false →
      truthy (headers.lookup "X-Internal-Auth") = false →
      extract_user_context headers = Extraction.noIdentity) := by
  refine ⟨?_, ?_, ?_⟩
  · intro hg
    simp [extract_user_context, hnb, hg]
  · intro hg hint
    simp [extract_user_context, hnb, hg, hint]
  · intro hg hint
    simp [extract_user_context, hnb, hg, hint]

/-- C10 witness: headers carrying only X-User-Id (no user name, no bearer
token, no internal token) yield no identity; with both X-User-Id and
X-User-Name the gateway strategy applies; with only X-User-Id plus an
X-Internal-Auth token the internal-token strategy applies. -/
theorem extract_dispatch_witness :
    extract_user_context [("X-User-Id", "42")] = Extraction.noIdentity ∧
    extract_user_context [("X-User-Id", "42"), ("X-User-Name", "bob")] =
      Extraction.fromGatewayHeaders ∧
    extract_user_context [("X-User-Id", "42"), ("X-Internal-Auth", "tok")] =
      Extraction.fromInternalToken "tok" :=
  ⟨(extract_dispatch [("X-User-Id", "42")] (by decide)).2.2 (by decide) (by decide),
   (extract_dispatch [("X-User-Id", "42"), ("X-User-Name", "bob")] (by decide)).1
     (by decide),
   (extract_dispatch [("X-User-Id", "42"), ("X-Internal-Auth", "tok")] (by decide)).2.1
     (by decide) (by decide)⟩

end AuthConnector
